import Mathlib

/-!
Shallow embedding of the snapchat-dl repository (files
`snapchat_dl/downloader.py` and `snapchat_dl/snapchat_dl.py`) together with
theorems that settle the specification claims about it.

Modelling conventions:
* file contents are lists of bytes (`List Nat`); the filesystem is an
  association list from paths to contents; directories are not modelled
  (`os.makedirs(..., exist_ok=True)` never affects the behaviour the claims
  are about);
* side effects that the claims observe (sleeping, issuing an HTTP GET,
  removing a file, opening a file exclusively, logging an error) are recorded
  in an explicit event trace;
* an HTTP response is a record of the status code, the declared
  `Content-length` header (a *string*, as in `requests`), the streamed body
  chunks, and an optional point at which the stream raises a
  `requests.exceptions.RequestException`;
* Python exceptions become explicit outcome/`Except` values.
-/

set_option autoImplicit false

/-- A Python runtime value as far as the code compares them: `os.path.getsize`
returns an `int` while `response.headers["Content-length"]` is a `str`. -/
inductive PyVal where
  | int (n : Nat)
  | str (s : String)
  deriving DecidableEq

/-- Python `==`: values of the built-in types `int` and `str` never compare
equal to one another (`int.__eq__` returns `NotImplemented` on a `str` and the
comparison falls back to `False`). -/
def pyEq : PyVal → PyVal → Bool
  | .int a, .int b => a == b
  | .str a, .str b => a == b
  | _, _ => false

/-- Observable side effects of a download call, in program order. -/
inductive Event where
  | sleep (seconds : Nat)
  | httpGet (url : String)
  | removeFile (path : String)
  | openExclusive (path : String)
  | logError
  deriving DecidableEq

/-- How a call to one of the two `download_url` functions ends: a normal
return, or a raised `FileExistsError`, or a raised HTTP status error
(`raise response.raise_for_status()`). -/
inductive FetchOutcome where
  | returned
  | raisedFileExists
  | raisedHttpError (status : Nat)
  deriving DecidableEq

/-- The filesystem, restricted to regular files: path to byte content. -/
abbrev FS := List (String × List Nat)

/-- First binding of `p` in the association list. -/
def FS.lookup : FS → String → Option (List Nat)
  | [], _ => none
  | (q, c) :: rest, p => if q = p then some c else FS.lookup rest p

/-- `os.path.isfile`. -/
def FS.isfile (fs : FS) (p : String) : Bool :=
  (fs.lookup p).isSome

/-- `os.path.getsize`; the code only calls it on paths it knows exist. -/
def FS.getsize (fs : FS) (p : String) : Nat :=
  ((fs.lookup p).getD []).length

/-- `os.remove`. -/
def FS.removeFile (fs : FS) (p : String) : FS :=
  fs.filter (fun e => e.1 ≠ p)

/-- Create or replace the file at `p` with content `c`. -/
def FS.writeFile (fs : FS) (p : String) (c : List Nat) : FS :=
  (p, c) :: fs.removeFile p

/-- The reply the network gives to the streaming GET of a media URL. -/
structure HttpResponse where
  statusCode : Nat
  /-- the `Content-length` header value: a string, as `requests` delivers it -/
  contentLength : String
  /-- the body as the chunks `iter_content` yields -/
  chunks : List (List Nat)
  /-- `some k`: a `RequestException` is raised after `k` chunks were written;
  `none`: the stream completes -/
  failAfter : Option Nat
  deriving DecidableEq

/-- Result of one `download_url` call. -/
structure FetchResult where
  fs : FS
  events : List Event
  outcome : FetchOutcome
  deriving DecidableEq

/-- `snapchat_dl/downloader.py`, `download_url(url, dest, sleep_interval)`:

1. `os.makedirs(os.path.dirname(dest), exist_ok=True)` (directories are not
   modelled);
2. delete `dest` if it exists with size 0;
3. `time.sleep(sleep_interval)`;
4. `requests.get(url, stream=True, timeout=10)`; a status other than
   `requests.codes.get("ok") = 200` raises out of the call;
5. raise `FileExistsError` if `dest` exists and
   `os.path.getsize(dest) == response.headers["Content-length"]` — an `int`
   compared with a `str`, which in Python is never true;
6. `open(dest, "xb")`: raises `FileExistsError` if `dest` exists, otherwise
   creates it and streams the chunks into it; a `RequestException` while
   streaming is logged (`logger.error`) and swallowed, leaving whatever was
   written. -/
def downloader.download_url (url dest : String) (sleep_interval : Nat)
    (resp : HttpResponse) (fs : FS) : FetchResult :=
  let cleaned := fs.isfile dest && fs.getsize dest == 0
  let fs1 := if cleaned then fs.removeFile dest else fs
  let ev1 := if cleaned then [Event.removeFile dest] else []
  let ev2 := ev1 ++ [Event.sleep sleep_interval, Event.httpGet url]
  if resp.statusCode ≠ 200 then
    ⟨fs1, ev2, .raisedHttpError resp.statusCode⟩
  else if fs1.isfile dest && pyEq (.int (fs1.getsize dest)) (.str resp.contentLength) then
    ⟨fs1, ev2, .raisedFileExists⟩
  else if fs1.isfile dest then
    ⟨fs1, ev2, .raisedFileExists⟩
  else
    let ev3 := ev2 ++ [Event.openExclusive dest]
    match resp.failAfter with
    | none => ⟨fs1.writeFile dest resp.chunks.flatten, ev3, .returned⟩
    | some k =>
      ⟨fs1.writeFile dest ((resp.chunks.take k).flatten), ev3 ++ [Event.logError], .returned⟩

/-- `snapchat_dl/snapchat_dl.py`, method `SnapchatDL.download_url(url, dest)`
(the function the orchestrator actually submits to its worker pool):

1. `os.makedirs(os.path.dirname(dest), exist_ok=True)` (not modelled);
2. delete `dest` if it exists with size 0;
3. `open(dest, "xb")` — *before* any network traffic: raises
   `FileExistsError` if `dest` exists, otherwise creates it empty;
4. `requests.get(url, stream=True, timeout=10)` inside the `with` block; a
   non-200 status raises, leaving the freshly created empty file behind;
5. the `os.path.getsize(dest) == response.headers["Content-length"]` check
   compares the size of the just-created empty file (an `int`) with a `str`
   and can never be true;
6. the chunks are streamed into the file; a `RequestException` is printed and
   the destination file is **removed** (`os.remove(dest)`), and the call
   returns normally.

Note there is no sleep anywhere in this method. -/
def SnapchatDL.download_url (url dest : String) (resp : HttpResponse) (fs : FS) :
    FetchResult :=
  let cleaned := fs.isfile dest && fs.getsize dest == 0
  let fs1 := if cleaned then fs.removeFile dest else fs
  let ev1 := if cleaned then [Event.removeFile dest] else []
  if fs1.isfile dest then
    ⟨fs1, ev1, .raisedFileExists⟩
  else
    let fs2 := fs1.writeFile dest []
    let ev2 := ev1 ++ [Event.openExclusive dest, Event.httpGet url]
    if resp.statusCode ≠ 200 then
      ⟨fs2, ev2, .raisedHttpError resp.statusCode⟩
    else if pyEq (.int (fs2.getsize dest)) (.str resp.contentLength) then
      ⟨fs2, ev2, .raisedFileExists⟩
    else
      match resp.failAfter with
      | none => ⟨fs2.writeFile dest resp.chunks.flatten, ev2, .returned⟩
      | some k =>
        ⟨(fs2.writeFile dest ((resp.chunks.take k).flatten)).removeFile dest,
          ev2 ++ [Event.logError], .returned⟩

/-- Calendar date and time of day, as `datetime` exposes it. -/
structure DT where
  year : Nat
  month : Nat
  day : Nat
  hour : Nat
  minute : Nat
  second : Nat
  deriving DecidableEq

/-- Gregorian date from the number of days since 1970-01-01 (the standard
civil-from-days computation used by every proleptic-Gregorian conversion,
here for nonnegative day counts). -/
def civilFromDays (z : Nat) : Nat × Nat × Nat :=
  let z' := z + 719468
  let era := z' / 146097
  let doe := z' % 146097
  let yoe := (doe - doe / 1460 + doe / 36524 - doe / 146096) / 365
  let y := yoe + era * 400
  let doy := doe - (365 * yoe + yoe / 4 - yoe / 100)
  let mp := (5 * doy + 2) / 153
  let d := doy - (153 * mp + 2) / 5 + 1
  let m := if mp < 10 then mp + 3 else mp - 9
  (if m ≤ 2 then y + 1 else y, m, d)

/-- `datetime.utcfromtimestamp`: the naive UTC date-time of a (nonnegative)
unix timestamp.  It does not consult the machine's local timezone. -/
def utcfromtimestamp (ts : Nat) : DT :=
  let days := ts / 86400
  let secs := ts % 86400
  let c := civilFromDays days
  ⟨c.1, c.2.1, c.2.2, secs / 3600, (secs % 3600) / 60, secs % 60⟩

/-- The ambient machine state the `datetime` module could consult: the local
timezone, as an offset in seconds from UTC. -/
structure MachineEnv where
  tzOffset : Int
  deriving DecidableEq

/-- `datetime.fromtimestamp` (no `tz` argument): local civil time, i.e. the
UTC conversion of the offset-shifted timestamp.  The code under verification
never calls this; it is defined to express what timezone-dependence would
look like.  (Modelled for timestamps that stay nonnegative after the
shift.) -/
def datetime_fromtimestamp (env : MachineEnv) (ts : Nat) : DT :=
  utcfromtimestamp ((ts : Int) + env.tzOffset).toNat

/-- The decimal digit `d` (`d < 10`) as a character. -/
def digitChar (d : Nat) : Char := Char.ofNat (48 + d)

/-- Decimal digits of `n`, most significant first; `fuel` bounds the
recursion and any `fuel > n` is enough. -/
def natToCharsAux : Nat → Nat → List Char
  | 0, _ => []
  | fuel + 1, n =>
    if n < 10 then [digitChar n]
    else natToCharsAux fuel (n / 10) ++ [digitChar (n % 10)]

/-- Decimal digits of `n`. -/
def natToChars (n : Nat) : List Char := natToCharsAux (n + 1) n

/-- Decimal rendering of a natural number (Python `str(int)` for the
nonnegative integers this development handles). -/
def natToString (n : Nat) : String := ⟨natToChars n⟩

/-- Zero-pad to two digits, as `strftime` does for `%m %d %H %M %S`. -/
def pad2 (n : Nat) : List Char :=
  if n < 10 then '0' :: natToChars n else natToChars n

/-- Zero-pad to four digits, as `strftime` does for `%Y`. -/
def pad4 (n : Nat) : List Char :=
  List.replicate (4 - (natToChars n).length) '0' ++ natToChars n

/-- One `strftime` directive.  Only the directives the source uses
(`%Y %m %d %H %M %S`) are interpreted; any other pair passes through. -/
def strfDirective (dt : DT) : Char → List Char
  | 'Y' => pad4 dt.year
  | 'm' => pad2 dt.month
  | 'd' => pad2 dt.day
  | 'H' => pad2 dt.hour
  | 'M' => pad2 dt.minute
  | 'S' => pad2 dt.second
  | c => ['%', c]

/-- `datetime.strftime` over the format characters: `%` introduces a
directive, every other character is copied. -/
def strftime (dt : DT) : List Char → List Char
  | [] => []
  | '%' :: c :: rest => strfDirective dt c ++ strftime dt rest
  | c :: rest => c :: strftime dt rest

/-- `SnapchatDL.strf_time(timestamp, format_str)`:
`datetime.utcfromtimestamp(timestamp).strftime(format_str)`.  The machine
environment is passed to every component that could in principle read the
local timezone; `utcfromtimestamp` does not. -/
def SnapchatDL.strf_time (env : MachineEnv) (timestamp : Nat) (format_str : String) :
    String :=
  ⟨strftime (utcfromtimestamp timestamp) format_str.data⟩

/-- What `strf_time` would produce had the code used the timezone-dependent
`datetime.fromtimestamp` instead of `datetime.utcfromtimestamp`; defined only
as a contrast for the timezone-independence statement. -/
def localStrfTime (env : MachineEnv) (timestamp : Nat) (format_str : String) :
    String :=
  ⟨strftime (datetime_fromtimestamp env timestamp) format_str.data⟩

/-- Python `str.format` over the template characters: each `\x7b\x7d` pair
consumes the next positional argument, every other character is copied.
(Lone braces, which `str.format` rejects, do not occur in the templates the
source builds.) -/
def pyFormat : List Char → List String → List Char
  | [], _ => []
  | [c], _ => [c]
  | c :: d :: rest, args =>
    if c = '\x7b' ∧ d = '\x7d' then
      match args with
      | a :: as => a.data ++ pyFormat rest as
      | [] => pyFormat rest []
    else c :: pyFormat (d :: rest) args

/-- First character test, by the character list. -/
def strHeadIs (c : Char) (s : String) : Bool :=
  match s.data with
  | [] => false
  | d :: _ => d == c

/-- Last character test, by the character list. -/
def strLastIs (c : Char) (s : String) : Bool :=
  match s.data.getLast? with
  | some d => d == c
  | none => false

/-- `posixpath.join` for one component, as `os.path.join(a, b)` behaves: an
absolute `b` replaces `a`; an empty `a` contributes nothing; otherwise a `/`
separator is inserted unless `a` already ends with one. -/
def os_path_join (a b : String) : String :=
  if strHeadIs '/' b then b
  else if a = "" then b
  else if strLastIs '/' a then a ++ b
  else a ++ "/" ++ b

/-- A parsed JSON value, as `response.json()` delivers it.  Python maps JSON
`null` to `None`, which is also what `dict.get` returns for a missing key, so
`null` doubles as Python `None` here.  Numbers are restricted to the
nonnegative integers, which covers every numeric field the code reads
(`captureTimeSecs` unix timestamps). -/
inductive Json where
  | null
  | str (s : String)
  | num (n : Nat)
  | arr (xs : List Json)
  | obj (kvs : List (String × Json))

/-- First binding of `key` in a JSON object's field list. -/
def jsonLookup : List (String × Json) → String → Option Json
  | [], _ => none
  | (k, v) :: rest, key => if k = key then some v else jsonLookup rest key

/-- The Python exceptions the orchestration code can raise. -/
inductive PyError where
  | keyError
  | typeError
  | attributeError
  | valueError
  /-- `raise Exception("invalid username")` -/
  | invalidUsername
  deriving DecidableEq

/-- Python `v.get(key)`: defined on `dict` (missing key gives `None`); on any
other value — including `None` itself — attribute lookup of `get` raises
`AttributeError`. -/
def pyGet (v : Json) (key : String) : Except PyError Json :=
  match v with
  | .obj kvs => .ok ((jsonLookup kvs key).getD .null)
  | _ => .error .attributeError

/-- Python `v[key]` for a string key: on a `dict` a missing key raises
`KeyError`; on any non-`dict` it raises `TypeError`. -/
def pyIndex (v : Json) (key : String) : Except PyError Json :=
  match v with
  | .obj kvs =>
    match jsonLookup kvs key with
    | some x => .ok x
    | none => .error .keyError
  | _ => .error .typeError

/-- Python `int(v)`: a number stays itself, a decimal string is parsed
(`ValueError` if it is not one), anything else raises `TypeError`. -/
def pyToInt (v : Json) : Except PyError Nat :=
  match v with
  | .num n => .ok n
  | .str s =>
    match s.toNat? with
    | some n => .ok n
    | none => .error .valueError
  | _ => .error .typeError

/-- Rendering of a value by `str.format`'s `\x7b\x7d` placeholder: `None`
prints as `None`, strings print as themselves, integers in decimal.
(Container reprs are not reproduced; the `id` fields the code formats are
strings.) -/
def pyFormatJson : Json → String
  | .null => "None"
  | .str s => s
  | .num n => natToString n
  | .arr _ => "[...]"
  | .obj _ => "\x7b...\x7d"

/-- `str.format` of `media_type`'s result: the method falls through without a
`return` for unknown types, and formatting that implicit `None` produces the
text `None`. -/
def pyFormatOpt : Option String → String
  | some s => s
  | none => "None"

/-- Characters matched by the regex class `[\w\.\_]` of
`SnapchatDL.valid_username`.  Python's `\w` on a `str` pattern is
Unicode-aware: ASCII letters, digits and `_`, plus every other Unicode word
codepoint.  The full Unicode tables are not reproduced; beyond ASCII this
predicate lists the word characters used in this development (Python's `re`
matches U+00E9, the letter é, with `\w`). -/
def pyWordChar (c : Char) : Bool :=
  ('a' ≤ c && c ≤ 'z') || ('A' ≤ c && c ≤ 'Z') || ('0' ≤ c && c ≤ '9')
    || c = '_' || c = 'é'

/-- One character of the class `[\w\.\_]`. -/
def userChar (c : Char) : Bool := pyWordChar c || c = '.' || c = '_'

/-- `re.match(r"(?P<username>^[\w\.\_]+$)", s)`, returning the captured
group.  `re.match` anchors at the start, `[\w\.\_]+` greedily takes the
longest word-or-dot prefix, and `$` accepts either the end of the string or a
position just before a final newline. -/
def reMatchUsername (cs : List Char) : Option (List Char) :=
  let w := cs.takeWhile userChar
  let rest := cs.dropWhile userChar
  if w.isEmpty then none
  else if rest.isEmpty || rest == ['\n'] then some w else none

/-- `SnapchatDL.valid_username(username)`: the regex match followed by
`match.groupdict()["username"] == username`, so a match whose group is only a
proper prefix of the input (the trailing-newline case) is rejected. -/
def SnapchatDL.valid_username (username : String) : Bool :=
  match reMatchUsername username.data with
  | none => false
  | some w => decide (w = username.data)

/-- The username pattern exactly as the specification words it: a full-string
match of the ASCII regex `^[A-Za-z0-9_.]+$`.  Stated from the spec, to be
compared with `SnapchatDL.valid_username` as translated from the source. -/
def specUsernameMatch (s : String) : Bool :=
  !s.data.isEmpty && s.data.all fun c =>
    ('A' ≤ c && c ≤ 'Z') || ('a' ≤ c && c ≤ 'z') || ('0' ≤ c && c ≤ '9')
      || c = '_' || c = '.'

/-- `SnapchatDL.media_type(media_type)`: file extension for a media type.
The Python method has no final `return`, so an unknown type yields `None`. -/
def SnapchatDL.media_type : Json → Option String
  | .str "IMAGE" => some ".jpg"
  | .str "VIDEO" => some ".mp4"
  | .str "VIDEO_NO_SOUND" => some ".mp4"
  | _ => none

/-- `self.endpoint.format(username)`: the manifest URL for a username.  (The
string literal `"?request_origin=ORIGIN_WEB_PLAYER"` on the following source
line is a stray expression statement and is not part of the endpoint.) -/
def apiUrlFor (username : String) : String :=
  "https://storysharing.snapchat.com/v1/fetch/" ++ username

/-- The manifest endpoint's reply: status code and parsed JSON body. -/
structure ApiResponse where
  statusCode : Nat
  body : Json

/-- `SnapchatDL.get_stories(username)`: a non-200 status returns
`\x7b"stories_available": False\x7d`, modelled as `none`; otherwise the
parsed body is handed back (`some`). -/
def SnapchatDL.get_stories (resp : ApiResponse) : Option Json :=
  if resp.statusCode = 200 then some resp.body else none

/-- The `SnapchatDL.__init__` configuration the orchestration reads.
`max_workers` (pool size) and `no_progress` only affect scheduling width and
rendering and are not modelled. -/
structure Config where
  directoryPre : String
  limit_story : Int

/-- A download the orchestrator submits to its pool: the media URL (whatever
JSON value the manifest held) and the computed destination path. -/
structure TaskInfo where
  url : Json
  output : String

/-- The filename template the source builds:
`"%Y-%m-%d_%H-%M-%S \x7b\x7d \x7b\x7d\x7b\x7d"`. -/
def filenameTemplate : String := "%Y-%m-%d_%H-%M-%S \x7b\x7d \x7b\x7d\x7b\x7d"

/-- The filename of one snap:
`self.strf_time(timestamp, "%Y-%m-%d_%H-%M-%S \x7b\x7d \x7b\x7d\x7b\x7d").format(media.get("id"), username, file_ext)`. -/
def snapFilename (env : MachineEnv) (timestamp : Nat) (idv : Json)
    (username : String) (ext : Option String) : String :=
  ⟨pyFormat (SnapchatDL.strf_time env timestamp filenameTemplate).data
    [pyFormatJson idv, username, pyFormatOpt ext]⟩

/-- The loop body of `SnapchatDL.download` for one `media` entry of the
manifest: computes the media URL, timestamp, date directory, extension, and
destination filename, in the evaluation order of the source lines. -/
def buildTask (cfg : Config) (env : MachineEnv) (username : String)
    (media : Json) : Except PyError TaskInfo :=
  match pyIndex media "media" with
  | .error e => .error e
  | .ok mediaObj =>
    match pyIndex mediaObj "mediaUrl" with
    | .error e => .error e
    | .ok media_url =>
      match pyIndex media "captureTimeSecs" with
      | .error e => .error e
      | .ok tsv =>
        match pyToInt tsv with
        | .error e => .error e
        | .ok timestamp =>
          match pyIndex mediaObj "type" with
          | .error e => .error e
          | .ok typeVal =>
            match pyGet media "id" with
            | .error e => .error e
            | .ok idv =>
              let date_str := SnapchatDL.strf_time env timestamp "%Y-%m-%d"
              let file_ext := SnapchatDL.media_type typeVal
              let dir_name :=
                os_path_join (os_path_join ( Config.directoryPre cfg) username) date_str
              let filename := snapFilename env timestamp idv username file_ext
              .ok ⟨media_url, os_path_join dir_name filename⟩

/-- The `for media in stories` loop: tasks in manifest order; the first
raised exception propagates out of `download`. -/
def buildTasks (cfg : Config) (env : MachineEnv) (username : String) :
    List Json → Except PyError (List TaskInfo)
  | [] => .ok []
  | m :: ms =>
    match buildTask cfg env username m with
    | .error e => .error e
    | .ok t =>
      match buildTasks cfg env username ms with
      | .error e => .error e
      | .ok ts => .ok (t :: ts)

/-- `SnapchatDL.download(username)`.  The returned event list records the
network traffic of the call itself (the manifest GET of `get_stories`); the
`Except` carries the raised exception, or the Python return value (`False`
for "no stories", `True` otherwise) paired with the tasks submitted to the
worker pool, in manifest order.

Source shape:
* `if self.valid_username(username) is False: raise Exception("invalid username")`
  — before any network call;
* `response = self.get_stories(username)` — one GET of the manifest URL;
* `stories_available` false: print "has no stories" and `return False`;
* `stories = data.get("story").get("snaps")` — `AttributeError` when `data`
  is not a dict or `data.get("story")` returned `None` (or a non-dict);
* `stories[0 : self.limit_story]` when `limit_story > -1`; then
  `len(stories)` and `for media in stories` — a non-list `stories` (`None`
  when the `snaps` key is absent) raises `TypeError`;
* per media, the loop body of `buildTask`, each task submitted to the pool.
  Exceptions inside the submitted `download_url` futures are never read and
  so never propagate; the `except FileExistsError` around `executor.submit`
  is unreachable for the same reason. -/
def SnapchatDL.download (cfg : Config) (env : MachineEnv) (username : String)
    (resp : ApiResponse) : List Event × Except PyError (Bool × List TaskInfo) :=
  if SnapchatDL.valid_username username = false then
    ([], .error .invalidUsername)
  else
    ([Event.httpGet (apiUrlFor username)],
      match SnapchatDL.get_stories resp with
      | none => .ok (false, [])
      | some data =>
        match pyGet data "story" with
        | .error e => .error e
        | .ok story =>
          match pyGet story "snaps" with
          | .error e => .error e
          | .ok (.arr snaps) =>
            let stories :=
              if cfg.limit_story > -1 then snaps.take cfg.limit_story.toNat
              else snaps
            match buildTasks cfg env username stories with
            | .error e => .error e
            | .ok tasks => .ok (true, tasks)
          | .ok _ => .error .typeError)

/-- The ordered snap list of a manifest reply, when the reply is a 200 whose
body carries `story.snaps` as a list — the path `SnapchatDL.download` walks. -/
def manifestSnaps (resp : ApiResponse) : Option (List Json) :=
  match SnapchatDL.get_stories resp with
  | none => none
  | some data =>
    match pyGet data "story" with
    | .error _ => none
    | .ok story =>
      match pyGet story "snaps" with
      | .ok (.arr snaps) => some snaps
      | _ => none

/-- Scan of an event trace: `true` iff every `httpGet` is preceded
(anywhere earlier in the trace) by a `sleep`. -/
def sleepBeforeGets : List Event → Bool → Bool
  | [], _ => true
  | Event.sleep _ :: rest, _ => sleepBeforeGets rest true
  | Event.httpGet _ :: rest, seen => seen && sleepBeforeGets rest seen
  | _ :: rest, seen => sleepBeforeGets rest seen

/-- Every HTTP GET in the trace happens after some sleep. -/
def getsPrecededBySleep (evs : List Event) : Bool := sleepBeforeGets evs false

/-- `true` iff the trace contains no sleep at all. -/
def noSleepEvents (evs : List Event) : Bool :=
  evs.all fun e =>
    match e with
    | .sleep _ => false
    | _ => true

/-- `true` iff a `removeFile p` occurs strictly before the first `httpGet`
of the trace. -/
def removeBeforeGet : List Event → String → Bool
  | [], _ => false
  | Event.removeFile q :: rest, p => q == p || removeBeforeGet rest p
  | Event.httpGet _ :: _, _ => false
  | _ :: rest, p => removeBeforeGet rest p

/-- Suffix test on strings by their character lists. -/
def strEndsWith (s t : String) : Bool := List.isSuffixOf t.data s.data

/-- No opening brace among the characters: such text passes through
`str.format` verbatim. -/
def braceFree (cs : List Char) : Prop := ∀ c ∈ cs, c ≠ '\x7b'

/-- A well-formed manifest snap entry, used for concrete instances. -/
def sampleSnap (i url : String) (ts : Nat) (ty : String) : Json :=
  .obj [("id", .str i), ("captureTimeSecs", .num ts),
    ("media", .obj [("mediaUrl", .str url), ("type", .str ty)])]

/-- A 200 manifest reply carrying the given snaps under `story.snaps`. -/
def sampleManifest (xs : List Json) : ApiResponse :=
  ⟨200, .obj [("story", .obj [("snaps", .arr xs)])]⟩

theorem FS.lookup_removeFile_self (fs : FS) (p : String) :
    FS.lookup (FS.removeFile fs p) p = none := by
  induction fs with
  | nil => rfl
  | cons e rest ih =>
    obtain ⟨q, c⟩ := e
    by_cases h : q = p
    · simpa [FS.removeFile, List.filter_cons, h] using ih
    · simpa [FS.removeFile, List.filter_cons, h, FS.lookup] using ih

theorem FS.lookup_writeFile_self (fs : FS) (p : String) (c : List Nat) :
    FS.lookup (FS.writeFile fs p c) p = some c := by
  simp [FS.writeFile, FS.lookup]

theorem buildTasks_length (cfg : Config) (env : MachineEnv) (u : String) :
    ∀ ms ts, buildTasks cfg env u ms = .ok ts → ts.length = ms.length := by
  intro ms
  induction ms with
  | nil =>
    intro ts h
    simp only [buildTasks] at h
    cases h
    rfl
  | cons m rest ih =>
    intro ts h
    simp only [buildTasks] at h
    cases h1 : buildTask cfg env u m with
    | error e => rw [h1] at h; cases h
    | ok t =>
      rw [h1] at h
      cases h2 : buildTasks cfg env u rest with
      | error e => rw [h2] at h; cases h
      | ok ts' =>
        rw [h2] at h
        cases h
        simp [ih ts' h2]

theorem valid_username_iff (s : String) :
    SnapchatDL.valid_username s = true ↔
      (s.data ≠ [] ∧ s.data.all userChar = true) := by
  unfold SnapchatDL.valid_username reMatchUsername
  constructor
  · intro h
    by_cases hw : (s.data.takeWhile userChar).isEmpty
    · simp [hw] at h
    · simp only [hw, Bool.false_eq_true, if_false] at h
      by_cases hr : (s.data.dropWhile userChar).isEmpty || s.data.dropWhile userChar == ['\n']
      · simp only [hr, if_true] at h
        have hwl : s.data.takeWhile userChar = s.data := of_decide_eq_true h
        have hall : ∀ x ∈ s.data, userChar x := List.takeWhile_eq_self_iff.mp hwl
        refine ⟨?_, by simpa [List.all_eq_true] using hall⟩
        intro hnil
        rw [hnil] at hw
        simp at hw
      · simp [hr] at h
  · rintro ⟨hne, hall⟩
    have hall' : ∀ x ∈ s.data, userChar x := by simpa [List.all_eq_true] using hall
    have hwl : s.data.takeWhile userChar = s.data :=
      List.takeWhile_eq_self_iff.mpr hall'
    have hdl : s.data.dropWhile userChar = [] :=
      List.dropWhile_eq_nil_iff.mpr hall'
    rw [hwl, hdl]
    simp [List.isEmpty_iff, hne]

theorem digitChar_ne_brace (d : Nat) (hd : d < 10) : digitChar d ≠ '\x7b' := by
  interval_cases d <;> decide

theorem braceFree_natToCharsAux (fuel : Nat) :
    ∀ n, braceFree (natToCharsAux fuel n) := by
  induction fuel with
  | zero => intro n c hc; cases hc
  | succ fuel ih =>
    intro n c hc
    simp only [natToCharsAux] at hc
    by_cases h : n < 10
    · simp only [h, if_true, List.mem_singleton] at hc
      subst hc
      exact digitChar_ne_brace n h
    · simp only [h, if_false, List.mem_append, List.mem_singleton] at hc
      rcases hc with hc | hc
      · exact ih (n / 10) c hc
      · subst hc
        exact digitChar_ne_brace _ (Nat.mod_lt _ (by decide))

theorem braceFree_natToChars (n : Nat) : braceFree (natToChars n) :=
  braceFree_natToCharsAux (n + 1) n

theorem braceFree_pad2 (n : Nat) : braceFree (pad2 n) := by
  intro c hc
  unfold pad2 at hc
  by_cases h : n < 10
  · simp only [h, if_true, List.mem_cons] at hc
    rcases hc with hc | hc
    · subst hc; decide
    · exact braceFree_natToChars n c hc
  · simp only [h, if_false] at hc
    exact braceFree_natToChars n c hc

theorem braceFree_pad4 (n : Nat) : braceFree (pad4 n) := by
  intro c hc
  unfold pad4 at hc
  rcases List.mem_append.mp hc with hc | hc
  · have := List.eq_of_mem_replicate hc
    subst this; decide
  · exact braceFree_natToChars n c hc

theorem pyFormat_cons_of_ne (c : Char) (rest : List Char) (args : List String)
    (hc : c ≠ '\x7b') : pyFormat (c :: rest) args = c :: pyFormat rest args := by
  cases rest with
  | nil => cases args <;> simp [pyFormat]
  | cons d rest2 => simp [pyFormat, hc]

theorem pyFormat_append_of_braceFree (a b : List Char) (args : List String)
    (ha : braceFree a) : pyFormat (a ++ b) args = a ++ pyFormat b args := by
  induction a with
  | nil => simp
  | cons c a ih =>
    have hc : c ≠ '\x7b' := ha c (List.mem_cons_self c a)
    have ha' : braceFree a := fun x hx => ha x (List.mem_cons_of_mem c hx)
    simp only [List.cons_append]
    rw [pyFormat_cons_of_ne c (a ++ b) args hc, ih ha']

theorem pyFormat_pad4 (n : Nat) (b : List Char) (args : List String) :
    pyFormat (pad4 n ++ b) args = pad4 n ++ pyFormat b args :=
  pyFormat_append_of_braceFree _ _ _ (braceFree_pad4 n)

theorem pyFormat_pad2 (n : Nat) (b : List Char) (args : List String) :
    pyFormat (pad2 n ++ b) args = pad2 n ++ pyFormat b args :=
  pyFormat_append_of_braceFree _ _ _ (braceFree_pad2 n)

theorem pyFormat_dash (rest : List Char) (args : List String) :
    pyFormat ('-' :: rest) args = '-' :: pyFormat rest args :=
  pyFormat_cons_of_ne _ _ _ (by decide)

theorem pyFormat_underscore (rest : List Char) (args : List String) :
    pyFormat ('_' :: rest) args = '_' :: pyFormat rest args :=
  pyFormat_cons_of_ne _ _ _ (by decide)

theorem pyFormat_space (rest : List Char) (args : List String) :
    pyFormat (' ' :: rest) args = ' ' :: pyFormat rest args :=
  pyFormat_cons_of_ne _ _ _ (by decide)

theorem pyFormat_placeholder (rest : List Char) (a : String) (as : List String) :
    pyFormat ('\x7b' :: '\x7d' :: rest) (a :: as) = a.data ++ pyFormat rest as := by
  simp [pyFormat]

/-- The destination filename decomposes as date-time stamp, snap id,
username and extension text, so it always ends with the username followed by
whatever `str.format` makes of `media_type`'s result. -/
theorem snapFilename_eq (env : MachineEnv) (ts : Nat) (idv : Json) (u : String)
    (ext : Option String) :
    snapFilename env ts idv u ext =
      ⟨pad4 (utcfromtimestamp ts).year ++ '-' ::
        (pad2 (utcfromtimestamp ts).month ++ '-' ::
          (pad2 (utcfromtimestamp ts).day ++ '_' ::
            (pad2 (utcfromtimestamp ts).hour ++ '-' ::
              (pad2 (utcfromtimestamp ts).minute ++ '-' ::
                (pad2 (utcfromtimestamp ts).second ++ ' ' ::
                  ((pyFormatJson idv).data ++ ' ' ::
                    (u.data ++ (pyFormatOpt ext).data)))))))⟩ := by
  have h1 : (SnapchatDL.strf_time env ts filenameTemplate).data =
      pad4 (utcfromtimestamp ts).year ++ '-' ::
        (pad2 (utcfromtimestamp ts).month ++ '-' ::
          (pad2 (utcfromtimestamp ts).day ++ '_' ::
            (pad2 (utcfromtimestamp ts).hour ++ '-' ::
              (pad2 (utcfromtimestamp ts).minute ++ '-' ::
                (pad2 (utcfromtimestamp ts).second ++
                  (' ' :: '\x7b' :: '\x7d' :: ' ' :: '\x7b' :: '\x7d' ::
                    '\x7b' :: '\x7d' :: [])))))) := by
    show strftime (utcfromtimestamp ts) filenameTemplate.data = _
    have hdata : filenameTemplate.data =
        ['%', 'Y', '-', '%', 'm', '-', '%', 'd', '_', '%', 'H', '-', '%', 'M',
          '-', '%', 'S', ' ', '\x7b', '\x7d', ' ', '\x7b', '\x7d', '\x7b', '\x7d'] := rfl
    rw [hdata]
    simp only [strftime, strfDirective]
  unfold snapFilename
  rw [h1]
  rw [pyFormat_pad4, pyFormat_dash, pyFormat_pad2, pyFormat_dash, pyFormat_pad2,
    pyFormat_underscore, pyFormat_pad2, pyFormat_dash, pyFormat_pad2,
    pyFormat_dash, pyFormat_pad2, pyFormat_space, pyFormat_placeholder,
    pyFormat_space, pyFormat_placeholder, pyFormat_placeholder]
  simp [pyFormat]

theorem pyGet_error (v : Json) (key : String) (e : PyError)
    (h : pyGet v key = .error e) : e = .attributeError := by
  cases v <;> simp [pyGet] at h <;> exact h.symm

theorem pyIndex_error (v : Json) (key : String) (e : PyError)
    (h : pyIndex v key = .error e) : e = .typeError ∨ e = .keyError := by
  cases v with
  | obj kvs =>
    simp only [pyIndex] at h
    cases hk : jsonLookup kvs key with
    | some x => rw [hk] at h; cases h
    | none => rw [hk] at h; cases h; exact Or.inr rfl
  | null => cases h; exact Or.inl rfl
  | str s => cases h; exact Or.inl rfl
  | num n => cases h; exact Or.inl rfl
  | arr xs => cases h; exact Or.inl rfl

theorem pyToInt_error (v : Json) (e : PyError)
    (h : pyToInt v = .error e) : e = .valueError ∨ e = .typeError := by
  cases v with
  | str s =>
    simp only [pyToInt] at h
    cases hn : s.toNat? with
    | some n => rw [hn] at h; cases h
    | none => rw [hn] at h; cases h; exact Or.inl rfl
  | num n => cases h
  | null => cases h; exact Or.inr rfl
  | arr xs => cases h; exact Or.inr rfl
  | obj kvs => cases h; exact Or.inr rfl

theorem buildTask_error (cfg : Config) (env : MachineEnv) (u : String)
    (m : Json) (e : PyError) (h : buildTask cfg env u m = .error e) :
    e ≠ .invalidUsername := by
  unfold buildTask at h
  cases h1 : pyIndex m "media" with
  | error e1 =>
    simp only [h1] at h
    cases h
    rcases pyIndex_error _ _ _ h1 with h' | h' <;> simp [h']
  | ok mediaObj =>
    simp only [h1] at h
    cases h2 : pyIndex mediaObj "mediaUrl" with
    | error e2 =>
      simp only [h2] at h
      cases h
      rcases pyIndex_error _ _ _ h2 with h' | h' <;> simp [h']
    | ok media_url =>
      simp only [h2] at h
      cases h3 : pyIndex m "captureTimeSecs" with
      | error e3 =>
        simp only [h3] at h
        cases h
        rcases pyIndex_error _ _ _ h3 with h' | h' <;> simp [h']
      | ok tsv =>
        simp only [h3] at h
        cases h4 : pyToInt tsv with
        | error e4 =>
          simp only [h4] at h
          cases h
          rcases pyToInt_error _ _ h4 with h' | h' <;> simp [h']
        | ok timestamp =>
          simp only [h4] at h
          cases h5 : pyIndex mediaObj "type" with
          | error e5 =>
            simp only [h5] at h
            cases h
            rcases pyIndex_error _ _ _ h5 with h' | h' <;> simp [h']
          | ok typeVal =>
            simp only [h5] at h
            cases h6 : pyGet m "id" with
            | error e6 =>
              simp only [h6] at h
              cases h
              simp [pyGet_error _ _ _ h6]
            | ok idv => simp only [h6] at h; cases h

theorem buildTasks_error (cfg : Config) (env : MachineEnv) (u : String) :
    ∀ ms (e : PyError), buildTasks cfg env u ms = .error e →
      e ≠ .invalidUsername := by
  intro ms
  induction ms with
  | nil => intro e h; cases h
  | cons m rest ih =>
    intro e h
    simp only [buildTasks] at h
    cases h1 : buildTask cfg env u m with
    | error e1 =>
      rw [h1] at h
      cases h
      exact buildTask_error _ _ _ _ _ h1
    | ok t =>
      rw [h1] at h
      cases h2 : buildTasks cfg env u rest with
      | error e2 =>
        rw [h2] at h
        cases h
        exact ih _ h2
      | ok ts => rw [h2] at h; cases h

/-- Claim C9: a username failing the validity check makes `download` raise
`Exception("invalid username")` before any network call and before any task
is created: no manifest GET is issued, no task list exists, nothing is
written. -/
theorem c9_invalid_username_aborts_before_network (cfg : Config)
    (env : MachineEnv) (u : String) (resp : ApiResponse)
    (hinv : SnapchatDL.valid_username u = false) :
    SnapchatDL.download cfg env u resp = ([], .error .invalidUsername) := by
  simp [SnapchatDL.download, hinv]

/-- Witness for C9 at the concrete invalid username `"user name"`. -/
theorem c9_invalid_username_aborts_before_network_witness :
    SnapchatDL.valid_username "user name" = false ∧
      SnapchatDL.download ⟨".", -1⟩ ⟨0⟩ "user name" ⟨200, .null⟩ =
        ([], .error .invalidUsername) :=
  ⟨by decide,
    c9_invalid_username_aborts_before_network ⟨".", -1⟩ ⟨0⟩ "user name"
      ⟨200, .null⟩ (by decide)⟩

/-- Counterexample to claim C3: Python's `\w` is Unicode-aware, so
`valid_username` accepts `"café"`, which the spec's ASCII regex
`^[A-Za-z0-9_.]+$` rejects. -/
theorem c3_charset_counterexample :
    SnapchatDL.valid_username "café" = true ∧ specUsernameMatch "café" = false := by
  constructor <;> decide

/-- Claim C3 (amended): `valid_username s` holds iff `s` is nonempty and
every character of `s` belongs to the class `[\w\.\_]` with Python's
Unicode-aware `\w` — a strict superset of the spec's ASCII `[A-Za-z0-9_.]`;
and `download` raises the invalid-username error exactly for the strings
`valid_username` rejects. -/
theorem c3_username_validation :
    (∀ s : String, SnapchatDL.valid_username s = true ↔
        (s.data ≠ [] ∧ s.data.all userChar = true))
    ∧ ∀ (cfg : Config) (env : MachineEnv) (u : String) (resp : ApiResponse),
        (SnapchatDL.download cfg env u resp).2 = .error .invalidUsername ↔
          SnapchatDL.valid_username u = false := by
  refine ⟨valid_username_iff, ?_⟩
  intro cfg env u resp
  constructor
  · intro h
    cases hv : SnapchatDL.valid_username u with
    | false => rfl
    | true =>
      exfalso
      simp only [SnapchatDL.download, hv, Bool.true_eq_false, if_false] at h
      cases hgs : SnapchatDL.get_stories resp with
      | none => rw [hgs] at h; cases h
      | some data =>
        simp only [hgs] at h
        cases hst : pyGet data "story" with
        | error e =>
          simp only [hst] at h
          cases h
          have := pyGet_error _ _ _ hst
          cases this
        | ok story =>
          simp only [hst] at h
          cases hsn : pyGet story "snaps" with
          | error e =>
            simp only [hsn] at h
            cases h
            have := pyGet_error _ _ _ hsn
            cases this
          | ok snapsVal =>
            simp only [hsn] at h
            cases snapsVal with
            | arr snaps =>
              simp only at h
              cases hbt : buildTasks cfg env u
                  (if cfg.limit_story > -1 then snaps.take cfg.limit_story.toNat
                    else snaps) with
              | error e =>
                rw [hbt] at h
                cases h
                exact buildTasks_error _ _ _ _ _ hbt rfl
              | ok ts => rw [hbt] at h; cases h
            | null => cases h
            | str s => cases h
            | num n => cases h
            | obj kvs => cases h
  · intro hv
    simp [SnapchatDL.download, hv]

/-- Counterexample to claim C5: the fetch worker the orchestrator submits is
`SnapchatDL.download_url`, and a concrete run of it issues the media GET with
no sleep anywhere in its trace. -/
theorem c5_no_sleep_counterexample :
    Event.httpGet "u" ∈
        (SnapchatDL.download_url "u" "d" ⟨200, "9", [[1]], none⟩ []).events
      ∧ getsPrecededBySleep
          (SnapchatDL.download_url "u" "d" ⟨200, "9", [[1]], none⟩ []).events
        = false := by
  constructor <;> decide

/-- Claim C5 (amended): only the module-level `downloader.download_url`
performs the fixed rate-limit sleep before its GET; the class method
`SnapchatDL.download_url`, which `SnapchatDL.download` actually submits to
its worker pool, issues the media request with no sleep at all. -/
theorem c5_rate_limit_sleep :
    (∀ (url dest : String) (si : Nat) (resp : HttpResponse) (fs : FS),
        getsPrecededBySleep (downloader.download_url url dest si resp fs).events = true)
    ∧ ∀ (url dest : String) (resp : HttpResponse) (fs : FS),
        noSleepEvents (SnapchatDL.download_url url dest resp fs).events = true := by
  constructor
  · intro url dest si resp fs
    obtain ⟨st, cl, ch, fa⟩ := resp
    by_cases hc : (FS.isfile fs dest && FS.getsize fs dest == 0) = true <;>
      by_cases hst : st ≠ 200 <;>
      cases fa <;>
      simp [downloader.download_url, hc, hst, getsPrecededBySleep,
        sleepBeforeGets] <;>
      (repeat' split) <;>
      simp [sleepBeforeGets]
  · intro url dest resp fs
    obtain ⟨st, cl, ch, fa⟩ := resp
    by_cases hc : (FS.isfile fs dest && FS.getsize fs dest == 0) = true <;>
      by_cases hst : st ≠ 200 <;>
      cases fa <;>
      simp [SnapchatDL.download_url, hc, hst, noSleepEvents] <;>
      (repeat' split) <;>
      simp [noSleepEvents, List.forall_mem_cons]

/-- Counterexample to claim C1: a completed zero-byte download (existing
file of size 0, declared `Content-length` `"0"`) is *not* skipped on re-run:
the zero-size cleanup deletes it and the call opens the destination for
write and returns normally instead of raising `FileExistsError`. -/
theorem c1_zero_length_counterexample :
    (downloader.download_url "u" "d" 1 ⟨200, "0", [], none⟩ [("d", [])]).outcome
        = .returned
      ∧ Event.openExclusive "d" ∈
          (downloader.download_url "u" "d" 1 ⟨200, "0", [], none⟩ [("d", [])]).events := by
  constructor <;> decide

/-- Claim C1 (amended): for a destination that exists with *nonzero* size
equal to the declared content length, re-running either `download_url` raises
`FileExistsError` and leaves the filesystem untouched, with no exclusive open
of the destination — but the skip comes from the exclusive `"xb"` open (in
the class method even before any request), not from the size comparison,
which matches an `int` against the header string and never fires; a
zero-size file is instead deleted and re-downloaded. -/
theorem c1_rerun_completed_skips (url dest : String) (si : Nat)
    (resp : HttpResponse) (fs : FS) (content : List Nat)
    (hfile : FS.lookup fs dest = some content) (hne : content ≠ [])
    (hcl : resp.contentLength = toString content.length)
    (hok : resp.statusCode = 200) :
    (downloader.download_url url dest si resp fs).outcome = .raisedFileExists
    ∧ (downloader.download_url url dest si resp fs).fs = fs
    ∧ Event.openExclusive dest ∉ (downloader.download_url url dest si resp fs).events
    ∧ (SnapchatDL.download_url url dest resp fs).outcome = .raisedFileExists
    ∧ (SnapchatDL.download_url url dest resp fs).fs = fs
    ∧ Event.openExclusive dest ∉ (SnapchatDL.download_url url dest resp fs).events
    ∧ ∀ (n : Nat) (s : String), pyEq (.int n) (.str s) = false := by
  have hlen : content.length ≠ 0 := fun h => hne (List.length_eq_zero.mp h)
  refine ⟨?_, ?_, ?_, ?_, ?_, ?_, fun n s => rfl⟩ <;>
    simp [downloader.download_url, SnapchatDL.download_url, hok,
      FS.isfile, FS.getsize, hfile, hlen, pyEq]

/-- Witness for C1 (amended) at a one-byte completed file. -/
theorem c1_rerun_completed_skips_witness :
    (downloader.download_url "u" "d" 1 ⟨200, "1", [], none⟩ [("d", [7])]).outcome
        = .raisedFileExists
    ∧ (downloader.download_url "u" "d" 1 ⟨200, "1", [], none⟩ [("d", [7])]).fs
        = [("d", [7])]
    ∧ Event.openExclusive "d" ∉
        (downloader.download_url "u" "d" 1 ⟨200, "1", [], none⟩ [("d", [7])]).events
    ∧ (SnapchatDL.download_url "u" "d" ⟨200, "1", [], none⟩ [("d", [7])]).outcome
        = .raisedFileExists
    ∧ (SnapchatDL.download_url "u" "d" ⟨200, "1", [], none⟩ [("d", [7])]).fs
        = [("d", [7])]
    ∧ Event.openExclusive "d" ∉
        (SnapchatDL.download_url "u" "d" ⟨200, "1", [], none⟩ [("d", [7])]).events
    ∧ ∀ (n : Nat) (s : String), pyEq (.int n) (.str s) = false :=
  c1_rerun_completed_skips "u" "d" 1 ⟨200, "1", [], none⟩ [("d", [7])] [7]
    rfl (by decide) rfl rfl

/-- Claim C6: a zero-size destination file is deleted before the network
request, and the download then proceeds to the same path within the same
call, in both `download_url` implementations. -/
theorem c6_zero_size_self_healing (url dest : String) (si : Nat)
    (resp : HttpResponse) (fs : FS)
    (hzero : FS.lookup fs dest = some [])
    (hok : resp.statusCode = 200) (hnof : resp.failAfter = none) :
    removeBeforeGet (downloader.download_url url dest si resp fs).events dest = true
    ∧ FS.lookup (downloader.download_url url dest si resp fs).fs dest
        = some resp.chunks.flatten
    ∧ (downloader.download_url url dest si resp fs).outcome = .returned
    ∧ removeBeforeGet (SnapchatDL.download_url url dest resp fs).events dest = true
    ∧ FS.lookup (SnapchatDL.download_url url dest resp fs).fs dest
        = some resp.chunks.flatten
    ∧ (SnapchatDL.download_url url dest resp fs).outcome = .returned := by
  have hrm := FS.lookup_removeFile_self fs dest
  obtain ⟨st, cl, ch, fa⟩ := resp
  simp only at hok hnof
  subst hok hnof
  refine ⟨?_, ?_, ?_, ?_, ?_, ?_⟩ <;>
    simp [downloader.download_url, SnapchatDL.download_url, FS.isfile,
      FS.getsize, hzero, hrm, removeBeforeGet, FS.lookup_writeFile_self, pyEq]

/-- Witness for C6: a concrete zero-size file is removed and re-downloaded. -/
theorem c6_zero_size_self_healing_witness :
    removeBeforeGet
        (downloader.download_url "u" "d" 1 ⟨200, "2", [[3, 4]], none⟩ [("d", [])]).events "d" = true
    ∧ FS.lookup
        (downloader.download_url "u" "d" 1 ⟨200, "2", [[3, 4]], none⟩ [("d", [])]).fs "d"
        = some [3, 4]
    ∧ (downloader.download_url "u" "d" 1 ⟨200, "2", [[3, 4]], none⟩ [("d", [])]).outcome
        = .returned
    ∧ removeBeforeGet
        (SnapchatDL.download_url "u" "d" ⟨200, "2", [[3, 4]], none⟩ [("d", [])]).events "d" = true
    ∧ FS.lookup
        (SnapchatDL.download_url "u" "d" ⟨200, "2", [[3, 4]], none⟩ [("d", [])]).fs "d"
        = some [3, 4]
    ∧ (SnapchatDL.download_url "u" "d" ⟨200, "2", [[3, 4]], none⟩ [("d", [])]).outcome
        = .returned :=
  c6_zero_size_self_healing "u" "d" 1 ⟨200, "2", [[3, 4]], none⟩ [("d", [])]
    rfl rfl rfl

/-- Counterexample to claim C8: on a mid-transfer error the worker the
orchestrator uses, `SnapchatDL.download_url`, *removes* the partially
written file rather than leaving it in place (it does return normally). -/
theorem c8_partial_removed_counterexample :
    (SnapchatDL.download_url "u" "d" ⟨200, "9", [[1], [2]], some 1⟩ []).outcome
        = .returned
    ∧ FS.lookup
        (SnapchatDL.download_url "u" "d" ⟨200, "9", [[1], [2]], some 1⟩ []).fs "d"
        = none := by
  constructor <;> decide

/-- Claim C8 (amended): a mid-transfer network error never propagates — both
implementations log it and return normally — but only the module-level
`downloader.download_url` leaves the partially written file in place; the
class method `SnapchatDL.download_url` used by the orchestrator deletes it. -/
theorem c8_mid_transfer_error (url dest : String) (si : Nat)
    (resp : HttpResponse) (fs : FS) (k : Nat)
    (hno : FS.lookup fs dest = none) (hok : resp.statusCode = 200)
    (hfail : resp.failAfter = some k) :
    (downloader.download_url url dest si resp fs).outcome = .returned
    ∧ FS.lookup (downloader.download_url url dest si resp fs).fs dest
        = some ((resp.chunks.take k).flatten)
    ∧ Event.logError ∈ (downloader.download_url url dest si resp fs).events
    ∧ (SnapchatDL.download_url url dest resp fs).outcome = .returned
    ∧ FS.lookup (SnapchatDL.download_url url dest resp fs).fs dest = none
    ∧ Event.logError ∈ (SnapchatDL.download_url url dest resp fs).events := by
  obtain ⟨st, cl, ch, fa⟩ := resp
  simp only at hok hfail
  subst hok hfail
  refine ⟨?_, ?_, ?_, ?_, ?_, ?_⟩ <;>
    simp [downloader.download_url, SnapchatDL.download_url, FS.isfile,
      FS.getsize, hno, FS.lookup_writeFile_self, FS.lookup_removeFile_self, pyEq]

/-- Witness for C8 (amended) at a concrete two-chunk stream failing after
one chunk. -/
theorem c8_mid_transfer_error_witness :
    (downloader.download_url "u" "d" 1 ⟨200, "9", [[1], [2]], some 1⟩ []).outcome
        = .returned
    ∧ FS.lookup
        (downloader.download_url "u" "d" 1 ⟨200, "9", [[1], [2]], some 1⟩ []).fs "d"
        = some [1]
    ∧ Event.logError ∈
        (downloader.download_url "u" "d" 1 ⟨200, "9", [[1], [2]], some 1⟩ []).events
    ∧ (SnapchatDL.download_url "u" "d" ⟨200, "9", [[1], [2]], some 1⟩ []).outcome
        = .returned
    ∧ FS.lookup
        (SnapchatDL.download_url "u" "d" ⟨200, "9", [[1], [2]], some 1⟩ []).fs "d"
        = none
    ∧ Event.logError ∈
        (SnapchatDL.download_url "u" "d" ⟨200, "9", [[1], [2]], some 1⟩ []).events :=
  c8_mid_transfer_error "u" "d" 1 ⟨200, "9", [[1], [2]], some 1⟩ [] 1 rfl rfl rfl

/-- Counterexample to claim C2: a 200 manifest reply whose body lacks
`story.snaps` does not become the quiet "no stories" outcome — `download`
raises (`AttributeError` when `story` itself is missing, `TypeError` when
only `snaps` is), and the exception propagates to the caller. -/
theorem c2_missing_snaps_counterexample :
    (SnapchatDL.download ⟨".", -1⟩ ⟨0⟩ "alice" ⟨200, .obj []⟩).2
        = .error .attributeError
    ∧ (SnapchatDL.download ⟨".", -1⟩ ⟨0⟩ "alice" ⟨200, .obj [("story", .obj [])]⟩).2
        = .error .typeError := by
  exact ⟨rfl, rfl⟩

/-- Claim C2 (amended): a non-200 manifest reply yields the "no stories"
outcome — `download` returns `False` with no tasks and no exception after
the single manifest GET; but a 200 reply lacking `story.snaps` is *not*
handled: `download` raises `AttributeError` (missing/`None` `story`) or
`TypeError` (missing `snaps`) and the exception propagates. -/
theorem c2_unavailable_manifest (cfg : Config) (env : MachineEnv) (u : String)
    (resp : ApiResponse) (hvalid : SnapchatDL.valid_username u = true) :
    (resp.statusCode ≠ 200 →
        SnapchatDL.download cfg env u resp =
          ([Event.httpGet (apiUrlFor u)], .ok (false, [])))
    ∧ (resp.statusCode = 200 → pyGet resp.body "story" = .ok .null →
        (SnapchatDL.download cfg env u resp).2 = .error .attributeError)
    ∧ (resp.statusCode = 200 → ∀ story, pyGet resp.body "story" = .ok story →
        pyGet story "snaps" = .ok .null →
        (SnapchatDL.download cfg env u resp).2 = .error .typeError) := by
  refine ⟨?_, ?_, ?_⟩
  · intro hne
    simp [SnapchatDL.download, hvalid, SnapchatDL.get_stories, hne]
  · intro h200 hstory
    have hn : pyGet Json.null "snaps" = .error .attributeError := rfl
    simp [SnapchatDL.download, hvalid, SnapchatDL.get_stories, h200, hstory, hn]
  · intro h200 story hstory hsnaps
    simp [SnapchatDL.download, hvalid, SnapchatDL.get_stories, h200, hstory, hsnaps]

/-- Witness for C2 (amended): the 404 scenario at concrete inputs. -/
theorem c2_unavailable_manifest_witness :
    ((404 : Nat) ≠ 200 →
        SnapchatDL.download ⟨".", -1⟩ ⟨0⟩ "alice" ⟨404, .null⟩ =
          ([Event.httpGet (apiUrlFor "alice")], .ok (false, [])))
    ∧ ((404 : Nat) = 200 → pyGet Json.null "story" = .ok .null →
        (SnapchatDL.download ⟨".", -1⟩ ⟨0⟩ "alice" ⟨404, .null⟩).2
          = .error .attributeError)
    ∧ ((404 : Nat) = 200 → ∀ story, pyGet Json.null "story" = .ok story →
        pyGet story "snaps" = .ok .null →
        (SnapchatDL.download ⟨".", -1⟩ ⟨0⟩ "alice" ⟨404, .null⟩).2
          = .error .typeError) :=
  c2_unavailable_manifest ⟨".", -1⟩ ⟨0⟩ "alice" ⟨404, .null⟩ (by decide)

/-- Claim C4: with `limit_story = N >= 0` the orchestrator builds its tasks
from exactly the first `N` manifest snaps in manifest order (so at most `N`
tasks, and `min N M` for a manifest of `M` snaps); with `limit_story = -1`
it builds them from all snaps. -/
theorem c4_story_limit (cfg : Config) (env : MachineEnv) (u : String)
    (resp : ApiResponse) (xs : List Json)
    (hsnaps : manifestSnaps resp = some xs) :
    (0 ≤ cfg.limit_story →
        ∀ ts, (SnapchatDL.download cfg env u resp).2 = .ok (true, ts) →
          buildTasks cfg env u (xs.take cfg.limit_story.toNat) = .ok ts
          ∧ ts.length = min cfg.limit_story.toNat xs.length
          ∧ ts.length ≤ cfg.limit_story.toNat)
    ∧ (cfg.limit_story = -1 →
        ∀ ts, (SnapchatDL.download cfg env u resp).2 = .ok (true, ts) →
          buildTasks cfg env u xs = .ok ts ∧ ts.length = xs.length) := by
  unfold manifestSnaps at hsnaps
  cases hgs : SnapchatDL.get_stories resp with
  | none => rw [hgs] at hsnaps; cases hsnaps
  | some data =>
    simp only [hgs] at hsnaps
    cases hst : pyGet data "story" with
    | error e => simp only [hst] at hsnaps; cases hsnaps
    | ok story =>
      simp only [hst] at hsnaps
      cases hsn : pyGet story "snaps" with
      | error e => simp only [hsn] at hsnaps; cases hsnaps
      | ok snapsVal =>
        simp only [hsn] at hsnaps
        cases snapsVal with
        | null => cases hsnaps
        | str s => cases hsnaps
        | num n => cases hsnaps
        | obj kvs => cases hsnaps
        | arr snaps =>
          injection hsnaps with hxs
          subst hxs
          constructor
          · intro hlim ts hrun
            cases hv : SnapchatDL.valid_username u with
            | false => simp [SnapchatDL.download, hv] at hrun
            | true =>
              have hpos : cfg.limit_story > -1 := by omega
              simp only [SnapchatDL.download, hv, Bool.true_eq_false,
                if_false, hgs, hst, hsn, hpos, if_true] at hrun
              cases hbt : buildTasks cfg env u
                  (List.take cfg.limit_story.toNat snaps) with
              | error e => simp only [hbt] at hrun; cases hrun
              | ok ts' =>
                simp only [hbt, Except.ok.injEq, Prod.mk.injEq, true_and] at hrun
                subst hrun
                have hl := buildTasks_length cfg env u _ _ hbt
                rw [List.length_take] at hl
                exact ⟨rfl, hl, by omega⟩
          · intro hlim ts hrun
            cases hv : SnapchatDL.valid_username u with
            | false => simp [SnapchatDL.download, hv] at hrun
            | true =>
              have hneg : ¬(cfg.limit_story > -1) := by omega
              simp only [SnapchatDL.download, hv, Bool.true_eq_false,
                if_false, hgs, hst, hsn, hneg, if_false] at hrun
              cases hbt : buildTasks cfg env u snaps with
              | error e => simp only [hbt] at hrun; cases hrun
              | ok ts' =>
                simp only [hbt, Except.ok.injEq, Prod.mk.injEq, true_and] at hrun
                subst hrun
                exact ⟨rfl, buildTasks_length cfg env u _ _ hbt⟩

/-- Witness for C4: a manifest of three snaps with `limit_story = 2` yields
exactly the first two tasks in manifest order. -/
theorem c4_story_limit_witness :
    ((0 : Int) ≤ 2 →
        ∀ ts, (SnapchatDL.download ⟨".", 2⟩ ⟨-28800⟩ "alice"
            (sampleManifest [sampleSnap "w1" "http://u1" 1600000000 "IMAGE",
              sampleSnap "w2" "http://u2" 1600000001 "VIDEO",
              sampleSnap "w3" "http://u3" 1600000002 "VIDEO"])).2 = .ok (true, ts) →
          buildTasks ⟨".", 2⟩ ⟨-28800⟩ "alice"
              (List.take (Int.toNat 2) [sampleSnap "w1" "http://u1" 1600000000 "IMAGE",
                sampleSnap "w2" "http://u2" 1600000001 "VIDEO",
                sampleSnap "w3" "http://u3" 1600000002 "VIDEO"]) = .ok ts
          ∧ ts.length = min (Int.toNat 2)
              [sampleSnap "w1" "http://u1" 1600000000 "IMAGE",
                sampleSnap "w2" "http://u2" 1600000001 "VIDEO",
                sampleSnap "w3" "http://u3" 1600000002 "VIDEO"].length
          ∧ ts.length ≤ Int.toNat 2)
    ∧ ((2 : Int) = -1 →
        ∀ ts, (SnapchatDL.download ⟨".", 2⟩ ⟨-28800⟩ "alice"
            (sampleManifest [sampleSnap "w1" "http://u1" 1600000000 "IMAGE",
              sampleSnap "w2" "http://u2" 1600000001 "VIDEO",
              sampleSnap "w3" "http://u3" 1600000002 "VIDEO"])).2 = .ok (true, ts) →
          buildTasks ⟨".", 2⟩ ⟨-28800⟩ "alice"
              [sampleSnap "w1" "http://u1" 1600000000 "IMAGE",
                sampleSnap "w2" "http://u2" 1600000001 "VIDEO",
                sampleSnap "w3" "http://u3" 1600000002 "VIDEO"] = .ok ts
          ∧ ts.length = [sampleSnap "w1" "http://u1" 1600000000 "IMAGE",
              sampleSnap "w2" "http://u2" 1600000001 "VIDEO",
              sampleSnap "w3" "http://u3" 1600000002 "VIDEO"].length) :=
  c4_story_limit ⟨".", 2⟩ ⟨-28800⟩ "alice"
    (sampleManifest [sampleSnap "w1" "http://u1" 1600000000 "IMAGE",
      sampleSnap "w2" "http://u2" 1600000001 "VIDEO",
      sampleSnap "w3" "http://u3" 1600000002 "VIDEO"])
    [sampleSnap "w1" "http://u1" 1600000000 "IMAGE",
      sampleSnap "w2" "http://u2" 1600000001 "VIDEO",
      sampleSnap "w3" "http://u3" 1600000002 "VIDEO"] rfl

theorem stringDataEq (s t : String) (h : s.data = t.data) : s = t := by
  cases s; cases t; simp at h; rw [h]

theorem stringDataAppend (s t : String) : (s ++ t).data = s.data ++ t.data := by
  cases s; cases t; rfl

theorem absListLemma (A B C D E F I ud ed : List Char) :
    A ++ '-' :: (B ++ '-' :: (C ++ '_' :: (D ++ '-' :: (E ++ '-' ::
        (F ++ ' ' :: (I ++ ' ' :: (ud ++ ed)))))))
      = (A ++ '-' :: (B ++ '-' :: (C ++ '_' :: (D ++ '-' :: (E ++ '-' ::
          (F ++ ' ' :: (I ++ [' ']))))))) ++ (ud ++ ed) := by
  simp

/-- Character-list form: the destination filename ends with the username
followed by the text `str.format` makes of the extension value. -/
theorem snapFilename_suffix_data (env : MachineEnv) (ts : Nat) (idv : Json)
    (u : String) (ext : Option String) :
    ∃ p : List Char, (snapFilename env ts idv u ext).data
      = p ++ (u.data ++ (pyFormatOpt ext).data) := by
  refine ⟨pad4 (utcfromtimestamp ts).year ++ '-' ::
    (pad2 (utcfromtimestamp ts).month ++ '-' ::
      (pad2 (utcfromtimestamp ts).day ++ '_' ::
        (pad2 (utcfromtimestamp ts).hour ++ '-' ::
          (pad2 (utcfromtimestamp ts).minute ++ '-' ::
            (pad2 (utcfromtimestamp ts).second ++ ' ' ::
              ((pyFormatJson idv).data ++ [' '])))))), ?_⟩
  rw [snapFilename_eq]
  exact absListLemma _ _ _ _ _ _ _ _ _

/-- The destination filename always ends with the username followed by the
text `str.format` makes of the extension value. -/
theorem snapFilename_suffix (env : MachineEnv) (ts : Nat) (idv : Json)
    (u : String) (ext : Option String) :
    ∃ p : String, snapFilename env ts idv u ext = p ++ (u ++ pyFormatOpt ext) := by
  obtain ⟨pd, hl⟩ := snapFilename_suffix_data env ts idv u ext
  refine ⟨⟨pd⟩, stringDataEq _ _ ?_⟩
  rw [stringDataAppend, stringDataAppend]
  exact hl

theorem buildTask_env (cfg : Config) (e1 e2 : MachineEnv) (u : String)
    (m : Json) : buildTask cfg e1 u m = buildTask cfg e2 u m := rfl

theorem buildTasks_env (cfg : Config) (e1 e2 : MachineEnv) (u : String) :
    ∀ ms, buildTasks cfg e1 u ms = buildTasks cfg e2 u ms := by
  intro ms
  induction ms with
  | nil => rfl
  | cons m rest ih =>
    simp only [buildTasks, buildTask_env cfg e1 e2 u m, ih]

theorem download_env (cfg : Config) (e1 e2 : MachineEnv) (u : String)
    (resp : ApiResponse) :
    SnapchatDL.download cfg e1 u resp = SnapchatDL.download cfg e2 u resp := by
  unfold SnapchatDL.download
  simp only [buildTasks_env cfg e1 e2 u]

/-- Counterexample to claim C7: for the unknown media type `"AUDIO"` the
task's filename does not end with the username — `str.format` renders the
`None` that `media_type` falls through with, so the name ends in the literal
text `None`. -/
theorem c7_unknown_type_counterexample :
    ∃ t : TaskInfo,
      buildTask ⟨".", -1⟩ ⟨-28800⟩ "alice"
          (sampleSnap "w2" "http://u2" 1600000000 "AUDIO") = .ok t
      ∧ t.url = .str "http://u2"
      ∧ t.output = "./alice/2020-09-13/2020-09-13_12-26-40 w2 aliceNone"
      ∧ strEndsWith t.output "alice" = false
      ∧ strEndsWith t.output "None" = true := by
  refine ⟨_, rfl, rfl, by decide, by decide, by decide⟩

/-- Claim C7 (amended): the extension mapping is `IMAGE → .jpg`,
`VIDEO → .mp4`, `VIDEO_NO_SOUND → .mp4`, and a filename with a known
extension ends with the username followed by that extension; but for any
other media type the method returns Python `None`, and the filename then
ends with the username followed by the literal text `None` rather than with
the username. -/
theorem c7_extension_mapping (env : MachineEnv) (ts : Nat) (idv : Json)
    (u : String) (t : String)
    (hunknown : SnapchatDL.media_type (.str t) = none) :
    SnapchatDL.media_type (.str "IMAGE") = some ".jpg"
    ∧ SnapchatDL.media_type (.str "VIDEO") = some ".mp4"
    ∧ SnapchatDL.media_type (.str "VIDEO_NO_SOUND") = some ".mp4"
    ∧ (∀ e : String, ∃ p : String,
        snapFilename env ts idv u (some e) = p ++ (u ++ e))
    ∧ ∃ p : String,
        snapFilename env ts idv u (SnapchatDL.media_type (.str t))
          = p ++ (u ++ "None") := by
  refine ⟨rfl, rfl, rfl, ?_, ?_⟩
  · intro e
    simpa [pyFormatOpt] using snapFilename_suffix env ts idv u (some e)
  · rw [hunknown]
    simpa [pyFormatOpt] using snapFilename_suffix env ts idv u none

/-- Witness for C7 (amended) at the unknown type `"AUDIO"`. -/
theorem c7_extension_mapping_witness :
    SnapchatDL.media_type (.str "IMAGE") = some ".jpg"
    ∧ SnapchatDL.media_type (.str "VIDEO") = some ".mp4"
    ∧ SnapchatDL.media_type (.str "VIDEO_NO_SOUND") = some ".mp4"
    ∧ (∀ e : String, ∃ p : String,
        snapFilename ⟨-28800⟩ 1600000000 (.str "w2") "alice" (some e)
          = p ++ ("alice" ++ e))
    ∧ ∃ p : String,
        snapFilename ⟨-28800⟩ 1600000000 (.str "w2") "alice"
            (SnapchatDL.media_type (.str "AUDIO"))
          = p ++ ("alice" ++ "None") :=
  c7_extension_mapping ⟨-28800⟩ 1600000000 (.str "w2") "alice" "AUDIO" rfl

/-- Claim C10: the date and time in the destination path come from
`datetime.utcfromtimestamp`, which never consults the machine's local
timezone, so the whole orchestration result — destination paths included —
is the same for any timezone; concretely, a machine at UTC-8 still gets the
12:26:40 UTC path for timestamp 1600000000, while the
`datetime.fromtimestamp` the code does not use would have shifted it. -/
theorem c10_utc_destination (cfg : Config) (u : String) (resp : ApiResponse) :
    (∀ e1 e2 : MachineEnv,
        SnapchatDL.download cfg e1 u resp = SnapchatDL.download cfg e2 u resp)
    ∧ SnapchatDL.strf_time ⟨-28800⟩ 1600000000 "%Y-%m-%d" = "2020-09-13"
    ∧ SnapchatDL.strf_time ⟨-28800⟩ 1600000000 "%Y-%m-%d_%H-%M-%S"
        = "2020-09-13_12-26-40"
    ∧ localStrfTime ⟨3600⟩ 1600000000 "%H-%M-%S"
        ≠ SnapchatDL.strf_time ⟨3600⟩ 1600000000 "%H-%M-%S"
    ∧ ∃ t : TaskInfo,
        (SnapchatDL.download ⟨".", -1⟩ ⟨-28800⟩ "alice"
            (sampleManifest [sampleSnap "w1" "http://u1" 1600000000 "IMAGE"])).2
          = .ok (true, [t])
        ∧ t.url = .str "http://u1"
        ∧ t.output = "./alice/2020-09-13/2020-09-13_12-26-40 w1 alice.jpg" := by
  refine ⟨fun e1 e2 => download_env cfg e1 e2 u resp, by decide, by decide,
    by decide, ?_⟩
  refine ⟨_, rfl, rfl, by decide⟩
